import Mathlib

/-!
Verification of the EyeCompanionApp core: the local SQLite event store with
its background batch writer (src/desktop/database/sqlite_manager.py), the
session endpoints (src/api/routes/sessions.py), and the upload/merge sync
protocol (src/api/routes/sync.py), shallowly embedded in Lean.

Timestamps are modelled as integers, blink rates as rationals, and the
SQL tables as Lean lists of rows.
-/

namespace EyeCompanion

/-! ## Server-side data model (src/api/models.py) -/

/-- A blink data point as it appears in an upload payload
(`BlinkDataPoint` / the dicts in `session_data["blink_data"]`). -/
structure BlinkDataPoint where
  timestamp : Int
  blink_count : Int
  blink_rate : Rat
  eye_aspect_ratio : Option Rat := none
  deriving Repr, DecidableEq

/-- A row of the `cloud_sessions` table (`CloudSession` in src/api/models.py). -/
structure CloudSession where
  id : Nat
  user_id : Nat
  local_session_id : Option Nat := none
  start_time : Int
  end_time : Option Int := none
  total_blinks : Int := 0
  avg_blink_rate : Rat := 0
  max_blink_rate : Rat := 0
  session_duration : Int := 0
  health_score : Option Int := none
  deriving Repr, DecidableEq

/-- A row of the `session_data` table (`SessionData` in src/api/models.py):
one stored event sample belonging to a cloud session. -/
structure SessionDataRow where
  session_id : Nat
  timestamp : Int
  blink_count : Int
  blink_rate : Rat
  eye_aspect_ratio : Option Rat := none
  deriving Repr, DecidableEq

/-- The server database state relevant to the sync and session routes. -/
structure CloudState where
  sessions : List CloudSession
  events : List SessionDataRow
  nextId : Nat
  deriving Repr, DecidableEq

/-! ## Health score (src/api/routes/sessions.py, calculate_health_score) -/

/-- `calculate_health_score(avg_blink_rate, session_duration)`:
baseline 100; sequential deductions for abnormal rate then for long
duration; clamped to [0, 100]. Translated statement-by-statement from
src/api/routes/sessions.py lines 45-68. -/
def calculate_health_score (avg_blink_rate : Rat) (session_duration : Int) : Int :=
  let score : Int := 100
  let score :=
    if avg_blink_rate < 10 then score - 20
    else if avg_blink_rate > 30 then score - 15
    else if avg_blink_rate > 25 then score - 10
    else score
  let score :=
    if session_duration > 7200 then score - 20
    else if session_duration > 3600 then score - 10
    else score
  max 0 (min 100 score)

/-- The deduction table exactly as the spec words it: one rate deduction
(20 if a < 10, 15 if a > 30, 10 if 25 < a ≤ 30, else 0). -/
def specRateDeduction (a : Rat) : Int :=
  if a < 10 then 20 else if a > 30 then 15 else if 25 < a ∧ a ≤ 30 then 10 else 0

/-- The duration deduction table exactly as the spec words it
(20 if d > 7200, 10 if 3600 < d ≤ 7200, else 0). -/
def specDurationDeduction (d : Int) : Int :=
  if d > 7200 then 20 else if 3600 < d ∧ d ≤ 7200 then 10 else 0

/-- The derived score exactly as the spec words it: clamp to [0,100] of
100 minus the rate deduction minus the duration deduction. -/
def specDerivedScore (a : Rat) (d : Int) : Int :=
  max 0 (min 100 (100 - specRateDeduction a - specDurationDeduction d))

/-! ## Sync upload protocol (src/api/routes/sync.py) -/

/-- One session in a `SyncUploadRequest` payload: the dict read by
`upload_local_data` (keys `local_id`, `start_time`, `end_time`,
`blink_data`; a missing key reads as `None` / `[]`). -/
structure UploadSession where
  local_id : Option Nat := none
  start_time : Option Int := none
  end_time : Option Int := none
  blink_data : List BlinkDataPoint := []
  deriving Repr, DecidableEq

/-- Python `max` over a nonempty list (the `[]` case is never reached by
the callers, which guard on nonemptiness). -/
def listMaxInt : List Int → Int
  | [] => 0
  | h :: t => t.foldl max h

/-- Python `max` over a nonempty list of rates. -/
def listMaxRat : List Rat → Rat
  | [] => 0
  | h :: t => t.foldl max h

/-- Python `sum(...) / len(...)`: the mean of a nonempty list of rates. -/
def listAvgRat (l : List Rat) : Rat :=
  (l.foldl (· + ·) 0) / l.length

/-- `process_blink_data(db, session_id, blink_data)`: stores one
`session_data` row per payload point and returns the rows together with
the number of points processed (row construction cannot fail here, so the
count is the payload length). src/api/routes/sync.py lines 27-55. -/
def process_blink_data (session_id : Nat) (blink_data : List BlinkDataPoint) :
    List SessionDataRow × Nat :=
  (blink_data.map (fun d =>
    { session_id := session_id
      timestamp := d.timestamp
      blink_count := d.blink_count
      blink_rate := d.blink_rate
      eye_aspect_ratio := d.eye_aspect_ratio }),
   blink_data.length)

/-- The match predicate of the upload path: an existing cloud session for
the same user whose `start_time` equals the uploaded one exactly. -/
def sessionMatch (uid : Nat) (t : Int) (cs : CloudSession) : Bool :=
  cs.user_id == uid && cs.start_time == t

/-- Replace the first element satisfying `p` by its image under `f`
(SQLAlchemy `.first()` followed by in-place mutation of that row). -/
def updateFirst (p : α → Bool) (f : α → α) : List α → List α
  | [] => []
  | a :: as => if p a then f a :: as else a :: updateFirst p f as

/-- The merge applied to a matched existing cloud session
(src/api/routes/sync.py lines 143-156): take the local `end_time` only
when the remote one is null; then, if the payload carries blink data,
set each statistic to the max of the remote value and the value derived
from the payload (`total` from the max cumulative `blink_count`, `avg`
from the payload mean, `max` from the payload max). -/
def mergeExisting (cs : CloudSession) (local_end : Option Int)
    (blink_data : List BlinkDataPoint) : CloudSession :=
  let cs := if local_end.isSome && cs.end_time.isNone then
      { cs with end_time := local_end } else cs
  if blink_data.isEmpty then cs
  else
    { cs with
      total_blinks := max cs.total_blinks (listMaxInt (blink_data.map (·.blink_count)))
      avg_blink_rate := max cs.avg_blink_rate (listAvgRat (blink_data.map (·.blink_rate)))
      max_blink_rate := max cs.max_blink_rate (listMaxRat (blink_data.map (·.blink_rate))) }

/-- The statistics written onto a freshly created cloud session when the
payload carries blink data (src/api/routes/sync.py lines 182-189). -/
def newSessionStats (cs : CloudSession) (blink_data : List BlinkDataPoint) : CloudSession :=
  if blink_data.isEmpty then cs
  else
    { cs with
      total_blinks := listMaxInt (blink_data.map (·.blink_count))
      avg_blink_rate := listAvgRat (blink_data.map (·.blink_rate))
      max_blink_rate := listMaxRat (blink_data.map (·.blink_rate)) }

/-- One iteration of the per-session loop of `upload_local_data`
(src/api/routes/sync.py lines 125-192). The accumulator carries the
database state, `synced_sessions` and `synced_data_points`. A session
without `start_time` is skipped; a matched session is merged in place and
its payload points appended; an unmatched one becomes a new cloud session
(fresh id) with its points appended and `synced_sessions` incremented. -/
def uploadStep (uid : Nat) (acc : CloudState × Nat × Nat) (s : UploadSession) :
    CloudState × Nat × Nat :=
  let st := acc.1
  let created := acc.2.1
  let points := acc.2.2
  match s.start_time with
  | none => acc
  | some t =>
    match st.sessions.find? (sessionMatch uid t) with
    | some cs =>
      let rows := process_blink_data cs.id s.blink_data
      ({ st with
          sessions := updateFirst (sessionMatch uid t)
            (fun cs => mergeExisting cs s.end_time s.blink_data) st.sessions
          events := st.events ++ rows.1 },
       created, points + rows.2)
    | none =>
      let base : CloudSession :=
        { id := st.nextId
          user_id := uid
          local_session_id := s.local_id
          start_time := t
          end_time := s.end_time }
      let rows := process_blink_data st.nextId s.blink_data
      ({ st with
          sessions := st.sessions ++ [newSessionStats base s.blink_data]
          events := st.events ++ rows.1
          nextId := st.nextId + 1 },
       created + 1, points + rows.2)

/-- The body of `SyncResponse` (src/api/models.py lines 241-246). -/
structure SyncResponse where
  synced_sessions : Nat
  synced_data_points : Nat
  conflicts : List String
  status : String
  deriving Repr, DecidableEq

/-- `upload_local_data(request, current_user, db)` after the user-id check:
fold the per-session step over the uploaded sessions and commit, returning
the new state and the `SyncResponse`. `conflicts` is the local variable
initialised to `[]` at line 121 and never appended to. -/
def upload_local_data (uid : Nat) (sessions : List UploadSession) (st : CloudState) :
    CloudState × SyncResponse :=
  let r := sessions.foldl (uploadStep uid) (st, 0, 0)
  (r.1,
   { synced_sessions := r.2.1
     synced_data_points := r.2.2
     conflicts := []
     status := "success" })

/-- `resolve_session_conflicts(db, user_id, local_sessions)`
(src/api/routes/sync.py lines 57-84): for each payload session carrying
both a `local_id` and a `start_time`, report a conflict message when a
cloud session with the same owner and start time exists. Defined in the
source but never invoked on the upload path. -/
def resolve_session_conflicts (uid : Nat) (sessions : List UploadSession)
    (db : List CloudSession) : List String :=
  sessions.foldl (fun conflicts s =>
    match s.local_id, s.start_time with
    | some lid, some t =>
      match db.find? (sessionMatch uid t) with
      | some cs =>
        conflicts ++ ["Session " ++ toString lid ++
          " conflicts with existing cloud session " ++ toString cs.id]
      | none => conflicts
    | _, _ => conflicts) []

/-! ## Desktop local store (src/desktop/database/sqlite_manager.py) -/

/-- A row of the `local_sessions` table (schema at lines 95-110; the
`avg_blink_rate` column is nullable in effect because
`_update_session_totals` writes `AVG(...)`, which is SQL NULL when the
session has no stored blink rows yet). -/
structure LocalSession where
  id : Nat
  user_id : Option Nat := none
  start_time : Int
  end_time : Option Int := none
  total_blinks : Int := 0
  max_blink_rate : Rat := 0
  avg_blink_rate : Option Rat := some 0
  session_duration : Int := 0
  is_synced : Bool := false
  deriving Repr, DecidableEq

/-- A row of the `blink_data` table / the `BlinkData` dataclass that
travels through the in-memory queue. -/
structure BlinkRow where
  session_id : Nat
  user_id : Option Nat := none
  timestamp : Int
  blink_count : Int
  blink_rate : Rat
  eye_aspect_ratio : Option Rat := none
  is_synced : Bool := false
  deriving Repr, DecidableEq

/-- The in-memory and on-disk state owned by `SQLiteManager`: the two
tables the claims touch, the blink queue, the current session id and the
bound user. -/
structure SQLiteManager where
  sessions : List LocalSession
  blink_rows : List BlinkRow
  queue : List BlinkRow
  currentSessionId : Option Nat := none
  userId : Option Nat := none
  nextId : Nat := 1
  deriving Repr, DecidableEq

/-- The maxsize of `self.blink_queue`: `queue.Queue()` in `__init__`
(line 47) passes no maxsize, and Python's `queue.Queue` treats
`maxsize <= 0` as an infinite queue. -/
def blinkQueueMaxsize : Nat := 0

/-- Python `queue.Queue.put(item, block=False)` raises `queue.Full` iff
`0 < maxsize <= qsize()`. -/
def queuePutWouldFail (st : SQLiteManager) : Bool :=
  decide (0 < blinkQueueMaxsize) && decide (blinkQueueMaxsize ≤ st.queue.length)

/-- `AVG(blink_rate) FROM blink_data WHERE session_id = ?`: SQL NULL on an
empty row set, else the mean. -/
def sqlAvgRate (rows : List BlinkRow) (sid : Nat) : Option Rat :=
  let rs := rows.filter (fun r => r.session_id == sid)
  if rs.isEmpty then none
  else some (listAvgRat (rs.map (·.blink_rate)))

/-- `_update_session_totals(blink_count, blink_rate)` (lines 378-399):
one UPDATE of the current session's row that assigns `total_blinks` to
the passed cumulative count, keeps the running max of `blink_rate`, and
recomputes `avg_blink_rate` from the stored blink rows. -/
def updateSessionTotals (blink_count : Int) (blink_rate : Rat)
    (st : SQLiteManager) : SQLiteManager :=
  match st.currentSessionId with
  | none => st
  | some sid =>
    { st with sessions := st.sessions.map (fun s =>
        if s.id == sid then
          { s with
            total_blinks := blink_count
            max_blink_rate :=
              if blink_rate > s.max_blink_rate then blink_rate else s.max_blink_rate
            avg_blink_rate := sqlAvgRate st.blink_rows sid }
        else s) }

/-- `log_blink(blink_count, blink_rate, eye_aspect_ratio)` (lines 342-376):
with no active session, log a warning and return unchanged; otherwise put
the sample on the queue (non-blocking; an unreachable `queue.Full` would
drop it with a warning) and then apply the immediate totals update. -/
def log_blink (now : Int) (blink_count : Int) (blink_rate : Rat)
    (eye_aspect_ratio : Option Rat) (st : SQLiteManager) : SQLiteManager :=
  match st.currentSessionId with
  | none => st
  | some sid =>
    let bd : BlinkRow :=
      { session_id := sid
        user_id := st.userId
        timestamp := now
        blink_count := blink_count
        blink_rate := blink_rate
        eye_aspect_ratio := eye_aspect_ratio }
    if queuePutWouldFail st then st
    else updateSessionTotals blink_count blink_rate { st with queue := st.queue ++ [bd] }

/-- The `SELECT id FROM local_sessions WHERE end_time IS NULL ORDER BY
start_time DESC LIMIT 1` of `auto_create_session`: the open session with
the greatest start time (first such row on ties). -/
def activeLocalSession (l : List LocalSession) : Option LocalSession :=
  match l.filter (fun s => s.end_time.isNone) with
  | [] => none
  | h :: t => some (t.foldl (fun a b => if b.start_time > a.start_time then b else a) h)

/-- `auto_create_session()` (lines 292-340): reuse the open session when
one exists, else insert a fresh session starting now; either way record it
as the current session and return its id. -/
def auto_create_session (now : Int) (st : SQLiteManager) : Nat × SQLiteManager :=
  match activeLocalSession st.sessions with
  | some s => (s.id, { st with currentSessionId := some s.id })
  | none =>
    let s : LocalSession := { id := st.nextId, user_id := st.userId, start_time := now }
    (st.nextId,
     { st with
        sessions := st.sessions ++ [s]
        currentSessionId := some st.nextId
        nextId := st.nextId + 1 })

/-- `end_current_session()` (lines 428-472): `None` when no session is
current; otherwise wait until the background writer has drained the queue
(modelled as the pending rows landing in `blink_data`), set `end_time` and
`session_duration` on the current row, fetch the updated record, and clear
the current session id. -/
def end_current_session (now : Int) (st : SQLiteManager) :
    Option LocalSession × SQLiteManager :=
  match st.currentSessionId with
  | none => (none, st)
  | some sid =>
    let st1 : SQLiteManager := { st with blink_rows := st.blink_rows ++ st.queue, queue := [] }
    let st2 : SQLiteManager := { st1 with sessions := st1.sessions.map (fun s =>
        if s.id == sid then
          { s with end_time := some now, session_duration := now - s.start_time }
        else s) }
    (st2.sessions.find? (fun s => s.id == sid), { st2 with currentSessionId := none })

/-! ## Background batch writer (src/desktop/database/sqlite_manager.py) -/

/-- `self.batch_size = 50` (line 48). -/
def batchSize : Nat := 50

/-- The state of the `_process_blink_batches` consumer loop: the shared
queue, the local `batch` accumulator, and the `blink_data` table. -/
structure WriterState where
  queue : List BlinkRow
  batch : List BlinkRow
  db : List BlinkRow
  deriving Repr, DecidableEq

/-- One iteration of the `while` loop of `_process_blink_batches`
(lines 231-253). `timedOut` stands for `current_time - last_batch_time >=
self.batch_timeout`; `insertFails` says whether the transaction of
`_insert_blink_batch` fails on this attempt. Dequeue at most one item
into the batch; flush when the batch is full or nonempty after a timeout;
a failed flush raises, is caught by the loop's `except`, and leaves both
the batch and the table as they were (the transaction rolled back). -/
def writerStep (timedOut insertFails : Bool) (st : WriterState) : WriterState :=
  let st := match st.queue with
    | [] => st
    | b :: rest => { st with queue := rest, batch := st.batch ++ [b] }
  if st.batch.length ≥ batchSize || (!st.batch.isEmpty && timedOut) then
    if insertFails then st
    else { st with db := st.db ++ st.batch, batch := [] }
  else st

/-! ## Cloud session close (src/api/routes/sessions.py) -/

/-- The body of `SessionEndRequest` (src/api/models.py lines 146-150). -/
structure SessionEndRequest where
  session_id : Nat
  total_blinks : Int
  avg_blink_rate : Rat
  max_blink_rate : Rat
  session_duration : Int
  deriving Repr, DecidableEq

/-- `end_session(request, current_user, db)` (src/api/routes/sessions.py
lines 142-207): 404 when the session does not exist, 403 when it belongs
to another user, 400 when it already has an `end_time`; otherwise write
`end_time = now`, copy the request statistics, compute the health score,
and return the updated record. -/
def end_session (now : Int) (uid : Nat) (req : SessionEndRequest) (st : CloudState) :
    Except String (CloudState × CloudSession) :=
  match st.sessions.find? (fun cs => cs.id == req.session_id) with
  | none => Except.error ("Session not found")
  | some s =>
    if s.user_id ≠ uid then
      Except.error ("Session does not belong to authenticated user")
    else if s.end_time.isSome then
      Except.error ("Session is already ended")
    else
      let s' : CloudSession :=
        { s with
          end_time := some now
          total_blinks := req.total_blinks
          avg_blink_rate := req.avg_blink_rate
          max_blink_rate := req.max_blink_rate
          session_duration := req.session_duration
          health_score := some (calculate_health_score req.avg_blink_rate req.session_duration) }
      Except.ok
        ({ st with sessions := updateFirst (fun cs => cs.id == req.session_id) (fun _ => s') st.sessions },
         s')

/-! ## Helper lemmas -/

theorem updateFirst_length (p : α → Bool) (f : α → α) (l : List α) :
    (updateFirst p f l).length = l.length := by
  induction l with
  | nil => rfl
  | cons a as ih =>
    by_cases h : p a <;> simp [updateFirst, h, ih]

theorem find?_updateFirst (p : α → Bool) (f : α → α) (l : List α) (a : α)
    (hfind : l.find? p = some a) (hf : p (f a) = true) :
    (updateFirst p f l).find? p = some (f a) := by
  induction l with
  | nil => simp at hfind
  | cons x xs ih =>
    by_cases h : p x
    · rw [List.find?_cons_of_pos _ h] at hfind
      injection hfind with hxa
      subst hxa
      simp [updateFirst, h, List.find?_cons_of_pos _ hf]
    · have h' : ¬ p x = true := by simp [h]
      rw [List.find?_cons_of_neg _ h'] at hfind
      simp only [updateFirst, if_neg h]
      rw [List.find?_cons_of_neg _ h']
      exact ih hfind

theorem mem_updateFirst_of_all (p : α → Bool) (f : α → α) (q : α → Bool) (l : List α)
    (hq : ∀ x, q (f x) = q x) (h : ∃ a ∈ l, q a = true) :
    ∃ b ∈ updateFirst p f l, q b = true := by
  induction l with
  | nil => simpa using h
  | cons x xs ih =>
    obtain ⟨a, ha, hqa⟩ := h
    by_cases hp : p x
    · simp only [updateFirst, if_pos hp]
      rcases List.mem_cons.mp ha with rfl | hmem
      · exact ⟨f a, List.mem_cons_self _ _, by rw [hq]; exact hqa⟩
      · exact ⟨a, List.mem_cons_of_mem _ hmem, hqa⟩
    · simp only [updateFirst, if_neg hp]
      rcases List.mem_cons.mp ha with rfl | hmem
      · exact ⟨a, List.mem_cons_self _ _, hqa⟩
      · obtain ⟨b, hb, hqb⟩ := ih ⟨a, hmem, hqa⟩
        exact ⟨b, List.mem_cons_of_mem _ hb, hqb⟩

theorem mergeExisting_user_id (cs : CloudSession) (et : Option Int)
    (bd : List BlinkDataPoint) : (mergeExisting cs et bd).user_id = cs.user_id := by
  unfold mergeExisting
  split_ifs <;> rfl

theorem mergeExisting_start_time (cs : CloudSession) (et : Option Int)
    (bd : List BlinkDataPoint) : (mergeExisting cs et bd).start_time = cs.start_time := by
  unfold mergeExisting
  split_ifs <;> rfl

theorem sessionMatch_mergeExisting (uid : Nat) (t : Int) (cs : CloudSession)
    (et : Option Int) (bd : List BlinkDataPoint) :
    sessionMatch uid t (mergeExisting cs et bd) = sessionMatch uid t cs := by
  simp [sessionMatch, mergeExisting_user_id, mergeExisting_start_time]

/-! ## Claim theorems -/

/-- C5. For every session closed with average rate a and duration d, the
derived score equals the clamp to [0,100] of 100 minus one rate deduction
(20 if a < 10, 15 if a > 30, 10 if 25 < a ≤ 30, else 0) minus one duration
deduction (20 if d > 7200, 10 if 3600 < d ≤ 7200, else 0); in particular
a = 35, d = 8000 yields 65 and a = 8, d = 500 yields 80. -/
theorem c5_health_score_deduction_table :
    (∀ (a : Rat) (d : Int), calculate_health_score a d = specDerivedScore a d) ∧
    calculate_health_score 35 8000 = 65 ∧ calculate_health_score 8 500 = 80 := by
  refine ⟨?_, by decide, by decide⟩
  intro a d
  unfold calculate_health_score specDerivedScore specRateDeduction specDurationDeduction
  split_ifs <;> first
    | rfl
    | omega
    | (exfalso; simp_all)

/-- C9. For every upload request the conflicts list in the response is
empty: the upload path never classifies any case into the conflict bucket,
even on inputs where the (never invoked) conflict-detection helper
resolve_session_conflicts would report a start-time collision. -/
theorem c9_upload_conflicts_always_empty :
    (∀ (uid : Nat) (ss : List UploadSession) (st : CloudState),
      (upload_local_data uid ss st).2.conflicts = []) ∧
    (resolve_session_conflicts 7 [{ local_id := some 1, start_time := some 100 }]
        [{ id := 3, user_id := 7, start_time := 100, end_time := some 200 }] ≠ [] ∧
      (upload_local_data 7 [{ local_id := some 1, start_time := some 100 }]
        { sessions := [{ id := 3, user_id := 7, start_time := 100, end_time := some 200 }],
          events := [], nextId := 4 }).2.conflicts = []) := by
  exact ⟨fun uid ss st => rfl, by decide, rfl⟩

/-- C10. If no session is currently active, log_blink returns immediately
without enqueuing an event, without updating any session aggregate, and
without raising: the state is completely unchanged. -/
theorem c10_log_blink_without_session_is_noop
    (st : SQLiteManager) (h : st.currentSessionId = none)
    (now blink_count : Int) (blink_rate : Rat) (ear : Option Rat) :
    log_blink now blink_count blink_rate ear st = st := by
  unfold log_blink
  rw [h]

/-- Witness for C10 at a concrete manager with no current session. -/
theorem c10_witness :
    ({ sessions := [{ id := 1, start_time := 2 }], blink_rows := [], queue := [],
       currentSessionId := none } : SQLiteManager).currentSessionId = none ∧
    log_blink 5 3 (7 : Rat) none
      { sessions := [{ id := 1, start_time := 2 }], blink_rows := [], queue := [],
        currentSessionId := none } =
      { sessions := [{ id := 1, start_time := 2 }], blink_rows := [], queue := [],
        currentSessionId := none } :=
  ⟨rfl, c10_log_blink_without_session_is_noop _ rfl 5 3 7 none⟩

/-- The totals update never touches the queue. -/
theorem updateSessionTotals_queue (c : Int) (r : Rat) (st : SQLiteManager) :
    (updateSessionTotals c r st).queue = st.queue := by
  unfold updateSessionTotals
  cases st.currentSessionId <;> rfl

/-- A manager with one open session, an empty queue and that session
current. -/
def openOnlyManager : SQLiteManager :=
  { sessions := [{ id := 1, start_time := 0 }], blink_rows := [], queue := [],
    currentSessionId := some 1 }

/-- A manager whose queue already holds 60 samples (more than the batch
size) for its single open current session. -/
def busyManager : SQLiteManager :=
  { sessions := [{ id := 1, start_time := 0 }], blink_rows := [],
    queue := List.replicate 60 { session_id := 1, timestamp := 0, blink_count := 1, blink_rate := 1 },
    currentSessionId := some 1 }

/-- C6 counterexample. The blink queue is not bounded: `queue.Queue()` is
constructed with maxsize 0 (infinite), the non-blocking put can never
raise `queue.Full`, and log_blink on a state whose queue already holds 60
samples (beyond the batch size) still enqueues instead of dropping — so
no overflow condition is ever reported or counted. -/
theorem c6_counterexample_queue_unbounded :
    blinkQueueMaxsize = 0 ∧
    queuePutWouldFail busyManager = false ∧
    (log_blink 9 2 3 none busyManager).queue.length = busyManager.queue.length + 1 := by
  refine ⟨rfl, rfl, ?_⟩
  decide

/-- C6 (amended). Every call to log_blink with an active session returns
without raising and without blocking: the sample is always appended to the
in-memory queue, which is unbounded, so the drop path is unreachable. -/
theorem c6_log_blink_always_enqueues
    (st : SQLiteManager) (sid : Nat) (h : st.currentSessionId = some sid)
    (now blink_count : Int) (blink_rate : Rat) (ear : Option Rat) :
    (log_blink now blink_count blink_rate ear st).queue =
      st.queue ++ [{ session_id := sid, user_id := st.userId, timestamp := now,
                     blink_count := blink_count, blink_rate := blink_rate,
                     eye_aspect_ratio := ear }] := by
  have hq : queuePutWouldFail st = false := by
    simp [queuePutWouldFail, blinkQueueMaxsize]
  simp [log_blink, h, hq, updateSessionTotals_queue]

/-- Witness for C6 at a concrete manager. -/
theorem c6_witness :
    openOnlyManager.currentSessionId = some 1 ∧
    (log_blink 9 2 3 none openOnlyManager).queue =
      openOnlyManager.queue ++
        [{ session_id := 1, user_id := openOnlyManager.userId, timestamp := 9,
           blink_count := 2, blink_rate := 3, eye_aspect_ratio := none }] :=
  ⟨rfl, c6_log_blink_always_enqueues openOnlyManager 1 rfl 9 2 3 none⟩

/-- A writer whose batch holds one sample that the last flush attempt
failed to insert. -/
def stuckWriter : WriterState :=
  { queue := [], batch := [{ session_id := 1, timestamp := 3, blink_count := 2, blink_rate := 4 }],
    db := [] }

/-- C7 counterexample. A batch whose flush fails is not discarded after
one retry: after two consecutive failing attempts the batch is still
pending, and a third attempt inserts it into the database. -/
theorem c7_counterexample_batch_not_discarded :
    (writerStep true true (writerStep true true stuckWriter)).batch =
      [{ session_id := 1, timestamp := 3, blink_count := 2, blink_rate := 4 }] ∧
    (writerStep true false (writerStep true true (writerStep true true stuckWriter))).db =
      [{ session_id := 1, timestamp := 3, blink_count := 2, blink_rate := 4 }] := by
  decide

/-- C7 (amended). A failing flush leaves the database untouched and keeps
the whole batch (plus the sample dequeued this iteration); the batch is
re-attempted on every later flush trigger, and the next successful attempt
writes it in full — the consumer loop never discards a batch. -/
theorem c7_failed_flush_retains_batch :
    (∀ (timedOut : Bool) (w : WriterState),
      writerStep timedOut true w =
        { queue := w.queue.drop 1, batch := w.batch ++ w.queue.take 1, db := w.db }) ∧
    (∀ w : WriterState, w.queue = [] → w.batch ≠ [] →
      writerStep true false w = { queue := [], batch := [], db := w.db ++ w.batch }) := by
  constructor
  · intro t w
    obtain ⟨q, b, d⟩ := w
    cases q <;> simp [writerStep] <;> split <;> simp
  · intro w h1 h2
    obtain ⟨q, b, d⟩ := w
    simp only at h1 h2
    subst h1
    have hne : b.isEmpty = false := by
      cases b
      · simp at h2
      · rfl
    simp [writerStep, hne]

/-- Witness for C7 at the concrete stuck writer. -/
theorem c7_witness :
    stuckWriter.queue = [] ∧ stuckWriter.batch ≠ [] ∧
    writerStep true false stuckWriter =
      { queue := [], batch := [], db := stuckWriter.db ++ stuckWriter.batch } :=
  ⟨rfl, by decide, c7_failed_flush_retains_batch.2 stuckWriter rfl (by decide)⟩

/-- A manager whose single current session has already accumulated
total_blinks = 5. -/
def countedManager : SQLiteManager :=
  { sessions := [{ id := 1, start_time := 0, total_blinks := 5 }], blink_rows := [],
    queue := [], currentSessionId := some 1 }

/-- C8 counterexample. The local per-ingest aggregate update can decrease
total_blinks: `_update_session_totals` assigns the caller's cumulative
count directly, so logging a sample with blink_count = 3 on a session
whose stored total is 5 writes 3 < 5. -/
theorem c8_counterexample_total_blinks_decreases :
    ((countedManager.sessions.find? (fun s => s.id == 1)).map (fun s => s.total_blinks)) =
      some 5 ∧
    (((log_blink 7 3 1 none countedManager).sessions.find?
        (fun s => s.id == 1)).map (fun s => s.total_blinks)) = some 3 ∧
    (3 : Int) < 5 := by
  refine ⟨rfl, ?_, by decide⟩
  decide

/-- C8 (amended). On the remote side, merging a matched pair never
decreases total_blinks or max_blink_rate; on the local side the immediate
update keeps max_blink_rate as a running max, but total_blinks is assigned
the supplied cumulative count, so it is non-decreasing only when that
count is at least the stored total. -/
theorem c8_merge_monotonicity :
    (∀ (cs : CloudSession) (et : Option Int) (bd : List BlinkDataPoint),
      cs.total_blinks ≤ (mergeExisting cs et bd).total_blinks ∧
      cs.max_blink_rate ≤ (mergeExisting cs et bd).max_blink_rate) ∧
    (∀ (c : Int) (r : Rat) (st : SQLiteManager) (i : Nat) (s : LocalSession),
      st.sessions[i]? = some s →
      ∃ s', (updateSessionTotals c r st).sessions[i]? = some s' ∧
        s.max_blink_rate ≤ s'.max_blink_rate ∧
        (s.total_blinks ≤ c → s.total_blinks ≤ s'.total_blinks)) := by
  constructor
  · intro cs et bd
    constructor <;> (unfold mergeExisting; split_ifs <;> simp [le_max_left, le_refl])
  · intro c r st i s hs
    unfold updateSessionTotals
    cases hcs : st.currentSessionId with
    | none => exact ⟨s, hs, le_refl _, fun _ => le_refl _⟩
    | some sid =>
      by_cases hid : s.id = sid
      · let snew : LocalSession :=
          { s with
            total_blinks := c
            max_blink_rate := if r > s.max_blink_rate then r else s.max_blink_rate
            avg_blink_rate := sqlAvgRate st.blink_rows sid }
        refine ⟨snew, ?_, ?_, ?_⟩
        · simp [snew, List.getElem?_map, hs, hid]
        · show s.max_blink_rate ≤ (if r > s.max_blink_rate then r else s.max_blink_rate)
          split
          · next hgt => exact le_of_lt hgt
          · exact le_refl _
        · intro hle
          exact hle
      · refine ⟨s, ?_, le_refl _, fun _ => le_refl _⟩
        simp [List.getElem?_map, hs, hid]

/-- Witness for C8 at a concrete manager and index. -/
theorem c8_witness :
    countedManager.sessions[0]? =
      some { id := 1, start_time := 0, total_blinks := 5 } ∧
    (3 : Int) ≤ 5 ∧
    ∃ s', (updateSessionTotals 9 1 countedManager).sessions[0]? = some s' ∧
      ({ id := 1, start_time := 0, total_blinks := 5 } : LocalSession).max_blink_rate ≤
        s'.max_blink_rate ∧
      (({ id := 1, start_time := 0, total_blinks := 5 } : LocalSession).total_blinks ≤ 9 →
        ({ id := 1, start_time := 0, total_blinks := 5 } : LocalSession).total_blinks ≤
          s'.total_blinks) :=
  ⟨rfl, by decide,
    c8_merge_monotonicity.2 9 1 countedManager 0
      { id := 1, start_time := 0, total_blinks := 5 } rfl⟩

/-- A cloud state holding one already-ended session of user 7. -/
def endedCloudState : CloudState :=
  { sessions := [{ id := 2, user_id := 7, start_time := 0, end_time := some 5 }],
    events := [], nextId := 3 }

/-- An end request for the already-ended session. -/
def endedReq : SessionEndRequest :=
  { session_id := 2, total_blinks := 1, avg_blink_rate := 1, max_blink_rate := 1,
    session_duration := 1 }

/-- C4 counterexample. Closing twice does not return the identical closed
record both times: the first desktop close returns the closed record, the
second returns None (the current-session id was cleared); and the cloud
end_session endpoint answers an already-ended session with the error
"Session is already ended" rather than the record. -/
theorem c4_counterexample_second_close_not_identical :
    (end_current_session 10 openOnlyManager).1 =
      some { id := 1, start_time := 0, end_time := some 10, session_duration := 10 } ∧
    (end_current_session 20 (end_current_session 10 openOnlyManager).2).1 = none ∧
    end_session 30 7 endedReq endedCloudState =
      Except.error ("Session is already ended") := by
  refine ⟨by decide, by decide, rfl⟩

/-- C4 (amended). A second close is a no-op on the stores — no events are
written twice and no score is recomputed — but it does not return the
closed record: the desktop returns None once no session is current, and
the cloud endpoint rejects an already-ended session with a 400 error. -/
theorem c4_second_close_noop :
    (∀ (now : Int) (st : SQLiteManager), st.currentSessionId = none →
      end_current_session now st = (none, st)) ∧
    (∀ (now : Int) (uid : Nat) (req : SessionEndRequest) (st : CloudState) (s : CloudSession),
      st.sessions.find? (fun cs => cs.id == req.session_id) = some s →
      s.user_id = uid → s.end_time.isSome = true →
      end_session now uid req st = Except.error ("Session is already ended")) := by
  constructor
  · intro now st h
    simp [end_current_session, h]
  · intro now uid req st s hfind huid hsome
    simp [end_session, hfind, huid, hsome]

/-- Witness for C4 at a concrete manager and a concrete cloud state. -/
theorem c4_witness :
    ({ sessions := [], blink_rows := [], queue := [],
       currentSessionId := none } : SQLiteManager).currentSessionId = none ∧
    end_current_session 20
        { sessions := [], blink_rows := [], queue := [], currentSessionId := none } =
      (none, { sessions := [], blink_rows := [], queue := [], currentSessionId := none }) ∧
    endedCloudState.sessions.find? (fun cs => cs.id == endedReq.session_id) =
      some { id := 2, user_id := 7, start_time := 0, end_time := some 5 } ∧
    end_session 30 7 endedReq endedCloudState =
      Except.error ("Session is already ended") :=
  ⟨rfl, c4_second_close_noop.1 20 _ rfl, rfl,
    c4_second_close_noop.2 30 7 endedReq endedCloudState
      { id := 2, user_id := 7, start_time := 0, end_time := some 5 } rfl rfl rfl⟩

/-- Open sessions (null end_time) a user owns in the cloud store. -/
def openSessionCount (uid : Nat) (l : List CloudSession) : Nat :=
  (l.filter (fun cs => cs.user_id == uid && cs.end_time.isNone)).length

/-- Open sessions in the local store. -/
def localOpenCount (l : List LocalSession) : Nat :=
  (l.filter (fun s => s.end_time.isNone)).length

/-- An upload payload carrying two still-open sessions with distinct
start times and no blink data. -/
def twoOpenUpload : List UploadSession :=
  [{ local_id := some 1, start_time := some 100 },
   { local_id := some 2, start_time := some 200 }]

/-- C3 counterexample. Upload does introduce a second open session for the
same owner: uploading two open local sessions with distinct start times
into an empty cloud store leaves two remote sessions with null end_time
owned by the same user. -/
theorem c3_counterexample_upload_two_open_sessions :
    openSessionCount 7 ({ sessions := [], events := [], nextId := 1 } : CloudState).sessions = 0 ∧
    openSessionCount 7
      (upload_local_data 7 twoOpenUpload
        { sessions := [], events := [], nextId := 1 }).1.sessions = 2 := by
  decide

/-- activeLocalSession finds nothing exactly when no open session exists. -/
theorem activeLocalSession_none_iff (l : List LocalSession)
    (h : activeLocalSession l = none) : l.filter (fun s => s.end_time.isNone) = [] := by
  unfold activeLocalSession at h
  cases hf : l.filter (fun s => s.end_time.isNone) with
  | nil => rfl
  | cons x xs => rw [hf] at h; simp at h

/-- C3 (amended). auto_create_session keeps at most one open local
session: when an open session exists it is reused without inserting a row,
and from a state with at most one open session the result again has at
most one; but upload can create several open remote sessions for one
owner (see the counterexample), so the invariant does not hold across the
sync path. -/
theorem c3_auto_create_session_reuses_open :
    (∀ (now : Int) (st : SQLiteManager) (s : LocalSession),
      activeLocalSession st.sessions = some s →
      (auto_create_session now st).2.sessions = st.sessions ∧
      (auto_create_session now st).1 = s.id) ∧
    (∀ (now : Int) (st : SQLiteManager),
      localOpenCount st.sessions ≤ 1 →
      localOpenCount (auto_create_session now st).2.sessions ≤ 1) := by
  constructor
  · intro now st s h
    constructor <;> simp [auto_create_session, h]
  · intro now st h
    cases hact : activeLocalSession st.sessions with
    | some s => simpa [auto_create_session, hact] using h
    | none =>
      have hempty := activeLocalSession_none_iff st.sessions hact
      simp [auto_create_session, hact, localOpenCount, List.filter_append, hempty]

/-- Witness for C3 at a concrete manager with one open session. -/
theorem c3_witness :
    activeLocalSession openOnlyManager.sessions = some { id := 1, start_time := 0 } ∧
    (auto_create_session 50 openOnlyManager).2.sessions = openOnlyManager.sessions ∧
    (auto_create_session 50 openOnlyManager).1 = 1 :=
  ⟨rfl,
    (c3_auto_create_session_reuses_open.1 50 openOnlyManager { id := 1, start_time := 0 } rfl).1,
    (c3_auto_create_session_reuses_open.1 50 openOnlyManager { id := 1, start_time := 0 } rfl).2⟩

theorem mergeExisting_total (cs : CloudSession) (et : Option Int)
    (bd : List BlinkDataPoint) (hbd : bd ≠ []) :
    (mergeExisting cs et bd).total_blinks =
      max cs.total_blinks (listMaxInt (bd.map (·.blink_count))) := by
  have hbe : bd.isEmpty = false := by cases bd with
    | nil => exact absurd rfl hbd
    | cons x xs => rfl
  unfold mergeExisting
  simp only [hbe]
  split_ifs <;> first | rfl | simp_all

theorem mergeExisting_avg (cs : CloudSession) (et : Option Int)
    (bd : List BlinkDataPoint) (hbd : bd ≠ []) :
    (mergeExisting cs et bd).avg_blink_rate =
      max cs.avg_blink_rate (listAvgRat (bd.map (·.blink_rate))) := by
  have hbe : bd.isEmpty = false := by cases bd with
    | nil => exact absurd rfl hbd
    | cons x xs => rfl
  unfold mergeExisting
  simp only [hbe]
  split_ifs <;> first | rfl | simp_all

theorem mergeExisting_max (cs : CloudSession) (et : Option Int)
    (bd : List BlinkDataPoint) (hbd : bd ≠ []) :
    (mergeExisting cs et bd).max_blink_rate =
      max cs.max_blink_rate (listMaxRat (bd.map (·.blink_rate))) := by
  have hbe : bd.isEmpty = false := by cases bd with
    | nil => exact absurd rfl hbd
    | cons x xs => rfl
  unfold mergeExisting
  simp only [hbe]
  split_ifs <;> first | rfl | simp_all

theorem mergeExisting_end_time (cs : CloudSession) (et : Option Int)
    (bd : List BlinkDataPoint) :
    (mergeExisting cs et bd).end_time =
      if cs.end_time = none then et else cs.end_time := by
  unfold mergeExisting
  cases et <;> cases hce : cs.end_time <;> split_ifs <;> simp_all

/-- C1. Uploading a local session whose owner and start_time exactly match
an existing remote session merges by max: the remote total_blinks,
avg_blink_rate and max_blink_rate each become the max of the remote value
and the value derived from the uploaded blink data, the remote end_time is
taken from the local one only when the remote end_time is null, no new
remote session is created, and synced_sessions stays 0. -/
theorem c1_matched_upload_merges_by_max
    (uid : Nat) (t : Int) (st : CloudState) (s : UploadSession) (cs : CloudSession)
    (hstart : s.start_time = some t)
    (hfind : st.sessions.find? (sessionMatch uid t) = some cs)
    (hbd : s.blink_data ≠ []) :
    (upload_local_data uid [s] st).2.synced_sessions = 0 ∧
    (upload_local_data uid [s] st).1.sessions.length = st.sessions.length ∧
    ∃ cs', (upload_local_data uid [s] st).1.sessions.find? (sessionMatch uid t) = some cs' ∧
      cs'.total_blinks = max cs.total_blinks (listMaxInt (s.blink_data.map (·.blink_count))) ∧
      cs'.avg_blink_rate = max cs.avg_blink_rate (listAvgRat (s.blink_data.map (·.blink_rate))) ∧
      cs'.max_blink_rate = max cs.max_blink_rate (listMaxRat (s.blink_data.map (·.blink_rate))) ∧
      cs'.end_time = (if cs.end_time = none then s.end_time else cs.end_time) := by
  have hp : sessionMatch uid t cs = true := List.find?_some hfind
  refine ⟨?_, ?_, ?_⟩
  · simp [upload_local_data, uploadStep, hstart, hfind]
  · simp [upload_local_data, uploadStep, hstart, hfind, updateFirst_length]
  · refine ⟨mergeExisting cs s.end_time s.blink_data, ?_, ?_, ?_, ?_, ?_⟩
    · have := find?_updateFirst (sessionMatch uid t)
        (fun c => mergeExisting c s.end_time s.blink_data) st.sessions cs hfind
        (by rw [sessionMatch_mergeExisting]; exact hp)
      simp [upload_local_data, uploadStep, hstart, hfind]
      exact this
    · exact mergeExisting_total cs s.end_time s.blink_data hbd
    · exact mergeExisting_avg cs s.end_time s.blink_data hbd
    · exact mergeExisting_max cs s.end_time s.blink_data hbd
    · exact mergeExisting_end_time cs s.end_time s.blink_data

/-- The remote session of the spec scenario: owner 7, start_time 100,
total_blinks 30, still open. -/
def scenarioRemote : CloudSession :=
  { id := 3, user_id := 7, start_time := 100, total_blinks := 30 }

/-- The cloud store of the spec scenario. -/
def scenarioState : CloudState :=
  { sessions := [scenarioRemote], events := [], nextId := 4 }

/-- The uploaded local session of the spec scenario: same start_time,
closed locally, with a data point whose cumulative blink_count is 40. -/
def scenarioUpload : UploadSession :=
  { local_id := some 1, start_time := some 100, end_time := some 160,
    blink_data := [{ timestamp := 150, blink_count := 40, blink_rate := 12 }] }

/-- Witness for C1 at the spec scenario: local total 40 against remote
total 30 merges to 40 with sessions_created = 0. -/
theorem c1_witness :
    scenarioUpload.start_time = some 100 ∧
    scenarioState.sessions.find? (sessionMatch 7 100) = some scenarioRemote ∧
    scenarioUpload.blink_data ≠ [] ∧
    ((upload_local_data 7 [scenarioUpload] scenarioState).2.synced_sessions = 0 ∧
     (upload_local_data 7 [scenarioUpload] scenarioState).1.sessions.length =
       scenarioState.sessions.length ∧
     ∃ cs', (upload_local_data 7 [scenarioUpload] scenarioState).1.sessions.find?
         (sessionMatch 7 100) = some cs' ∧
       cs'.total_blinks =
         max scenarioRemote.total_blinks
           (listMaxInt (scenarioUpload.blink_data.map (·.blink_count))) ∧
       cs'.avg_blink_rate =
         max scenarioRemote.avg_blink_rate
           (listAvgRat (scenarioUpload.blink_data.map (·.blink_rate))) ∧
       cs'.max_blink_rate =
         max scenarioRemote.max_blink_rate
           (listMaxRat (scenarioUpload.blink_data.map (·.blink_rate))) ∧
       cs'.end_time =
         (if scenarioRemote.end_time = none then scenarioUpload.end_time
          else scenarioRemote.end_time)) ∧
    ((upload_local_data 7 [scenarioUpload] scenarioState).1.sessions.find?
        (sessionMatch 7 100)).map (fun c => c.total_blinks) = some 40 :=
  ⟨rfl, rfl, by decide,
    c1_matched_upload_merges_by_max 7 100 scenarioState scenarioUpload scenarioRemote
      rfl rfl (by decide),
    by decide⟩

/-! ## C2: repeated upload -/

/-- An upload-payload session is covered by a cloud store when its
start_time (if any) already has a matching cloud session for the user. -/
def covered (uid : Nat) (l : List CloudSession) (s : UploadSession) : Prop :=
  ∀ t, s.start_time = some t → ∃ cs ∈ l, sessionMatch uid t cs = true

/-- The number of data points an upload run stores: one row per blink
data point of every payload session that carries a start_time. -/
def dataPointCount (ss : List UploadSession) : Nat :=
  (ss.map (fun s => match s.start_time with
    | none => 0
    | some _ => s.blink_data.length)).sum

theorem newSessionStats_user_id (cs : CloudSession) (bd : List BlinkDataPoint) :
    (newSessionStats cs bd).user_id = cs.user_id := by
  unfold newSessionStats
  split_ifs <;> rfl

theorem newSessionStats_start_time (cs : CloudSession) (bd : List BlinkDataPoint) :
    (newSessionStats cs bd).start_time = cs.start_time := by
  unfold newSessionStats
  split_ifs <;> rfl

/-- A matching session for any user and start time survives one upload
step: the merge rewrites only statistics and end_time, and new sessions
are only appended. -/
theorem exists_match_uploadStep (uid u : Nat) (t : Int)
    (acc : CloudState × Nat × Nat) (s : UploadSession)
    (h : ∃ cs ∈ acc.1.sessions, sessionMatch u t cs = true) :
    ∃ cs ∈ (uploadStep uid acc s).1.sessions, sessionMatch u t cs = true := by
  cases hst : s.start_time with
  | none => simpa [uploadStep, hst] using h
  | some t2 =>
    cases hfind : acc.1.sessions.find? (sessionMatch uid t2) with
    | some cs0 =>
      simp only [uploadStep, hst, hfind]
      exact mem_updateFirst_of_all _ _ _ _
        (fun x => sessionMatch_mergeExisting u t x s.end_time s.blink_data) h
    | none =>
      simp only [uploadStep, hst, hfind]
      obtain ⟨cs, hmem, hq⟩ := h
      exact ⟨cs, List.mem_append_left _ hmem, hq⟩

/-- After one upload step on a payload session, that session is covered:
either it matched an existing cloud session (which survives the in-place
merge) or a fresh cloud session with its owner and start time was
appended. -/
theorem covered_uploadStep_self (uid : Nat) (acc : CloudState × Nat × Nat)
    (s : UploadSession) : covered uid (uploadStep uid acc s).1.sessions s := by
  intro t hst
  cases hfind : acc.1.sessions.find? (sessionMatch uid t) with
  | some cs0 =>
    simp only [uploadStep, hst, hfind]
    refine mem_updateFirst_of_all _ _ _ _
      (fun x => sessionMatch_mergeExisting uid t x s.end_time s.blink_data) ?_
    exact ⟨cs0, List.mem_of_find?_eq_some hfind, List.find?_some hfind⟩
  | none =>
    simp only [uploadStep, hst, hfind]
    refine ⟨newSessionStats
      { id := acc.1.nextId, user_id := uid, local_session_id := s.local_id,
        start_time := t, end_time := s.end_time } s.blink_data,
      List.mem_append_right _ (List.mem_singleton.mpr rfl), ?_⟩
    simp [sessionMatch, newSessionStats_user_id, newSessionStats_start_time]

/-- Coverage of a payload session is preserved by a whole upload fold. -/
theorem covered_foldl (uid : Nat) (ss : List UploadSession)
    (acc : CloudState × Nat × Nat) (s : UploadSession)
    (h : covered uid acc.1.sessions s) :
    covered uid (ss.foldl (uploadStep uid) acc).1.sessions s := by
  induction ss generalizing acc with
  | nil => exact h
  | cons x rest ih =>
    refine ih (uploadStep uid acc x) ?_
    intro t hst
    exact exists_match_uploadStep uid uid t acc x (h t hst)

/-- After a full upload run, every payload session of that run is covered
by the resulting cloud store. -/
theorem covered_all_after_run (uid : Nat) (ss : List UploadSession)
    (acc : CloudState × Nat × Nat) :
    ∀ s ∈ ss, covered uid (ss.foldl (uploadStep uid) acc).1.sessions s := by
  induction ss generalizing acc with
  | nil => intro s hs; exact absurd hs (List.not_mem_nil s)
  | cons x rest ih =>
    intro s hs
    rcases List.mem_cons.mp hs with rfl | hmem
    · exact covered_foldl uid rest (uploadStep uid acc s) s
        (covered_uploadStep_self uid acc s)
    · exact ih (uploadStep uid acc x) s hmem

/-- A step on a covered payload session never increments the
session-creation counter. -/
theorem uploadStep_created_of_covered (uid : Nat) (acc : CloudState × Nat × Nat)
    (s : UploadSession) (h : covered uid acc.1.sessions s) :
    (uploadStep uid acc s).2.1 = acc.2.1 := by
  cases hst : s.start_time with
  | none => simp [uploadStep, hst]
  | some t =>
    have hsome : (acc.1.sessions.find? (sessionMatch uid t)).isSome := by
      rw [List.find?_isSome]
      exact h t hst
    cases hfind : acc.1.sessions.find? (sessionMatch uid t) with
    | none => rw [hfind] at hsome; exact absurd hsome (by simp)
    | some cs0 => simp [uploadStep, hst, hfind]

/-- An upload fold over sessions that are all covered at the start leaves
the session-creation counter unchanged. -/
theorem foldl_created_of_covered (uid : Nat) (ss : List UploadSession)
    (acc : CloudState × Nat × Nat)
    (h : ∀ s ∈ ss, covered uid acc.1.sessions s) :
    (ss.foldl (uploadStep uid) acc).2.1 = acc.2.1 := by
  induction ss generalizing acc with
  | nil => rfl
  | cons x rest ih =>
    have hx := h x (List.mem_cons_self x rest)
    have hstep := uploadStep_created_of_covered uid acc x hx
    have hrest : ∀ s ∈ rest, covered uid (uploadStep uid acc x).1.sessions s := by
      intro s hs t hst
      exact exists_match_uploadStep uid uid t acc x
        (h s (List.mem_cons_of_mem x hs) t hst)
    calc (List.foldl (uploadStep uid) (uploadStep uid acc x) rest).2.1
        = (uploadStep uid acc x).2.1 := ih (uploadStep uid acc x) hrest
      _ = acc.2.1 := hstep

/-- One upload step appends exactly the payload's event rows. -/
theorem uploadStep_events_length (uid : Nat) (acc : CloudState × Nat × Nat)
    (s : UploadSession) :
    (uploadStep uid acc s).1.events.length =
      acc.1.events.length +
        (match s.start_time with
         | none => 0
         | some _ => s.blink_data.length) := by
  cases hst : s.start_time with
  | none => simp [uploadStep, hst]
  | some t =>
    cases hfind : acc.1.sessions.find? (sessionMatch uid t) with
    | some cs0 => simp [uploadStep, hst, hfind, process_blink_data]
    | none => simp [uploadStep, hst, hfind, process_blink_data]

/-- An upload fold appends one event row per payload data point of every
session carrying a start_time. -/
theorem foldl_events_length (uid : Nat) (ss : List UploadSession)
    (acc : CloudState × Nat × Nat) :
    (ss.foldl (uploadStep uid) acc).1.events.length =
      acc.1.events.length + dataPointCount ss := by
  induction ss generalizing acc with
  | nil => simp [dataPointCount]
  | cons x rest ih =>
    have hx := uploadStep_events_length uid acc x
    calc (List.foldl (uploadStep uid) (uploadStep uid acc x) rest).1.events.length
        = (uploadStep uid acc x).1.events.length + dataPointCount rest :=
          ih (uploadStep uid acc x)
      _ = acc.1.events.length + dataPointCount (x :: rest) := by
          rw [hx]
          simp [dataPointCount]
          omega

/-- The empty cloud store. -/
def emptyCloud : CloudState := { sessions := [], events := [], nextId := 1 }

/-- C2 counterexample. Uploading the same single-session payload twice
into an empty store: the second run reports synced_sessions = 0, but it
appends the very same event row again — the store ends with two identical
copies of the one uploaded data point, so Events are duplicated. -/
theorem c2_counterexample_second_upload_duplicates_events :
    (upload_local_data 7 [scenarioUpload] emptyCloud).2.synced_sessions = 1 ∧
    (upload_local_data 7 [scenarioUpload] emptyCloud).1.events =
      [{ session_id := 1, timestamp := 150, blink_count := 40, blink_rate := 12 }] ∧
    (upload_local_data 7 [scenarioUpload]
      (upload_local_data 7 [scenarioUpload] emptyCloud).1).2.synced_sessions = 0 ∧
    (upload_local_data 7 [scenarioUpload]
      (upload_local_data 7 [scenarioUpload] emptyCloud).1).1.events =
      [{ session_id := 1, timestamp := 150, blink_count := 40, blink_rate := 12 },
       { session_id := 1, timestamp := 150, blink_count := 40, blink_rate := 12 }] := by
  decide

/-- C2 (amended). Running upload twice with the same local data yields
synced_sessions = 0 on the second run, but the second run appends every
payload data point again: each run adds dataPointCount ss event rows, so
the repeated run duplicates the Events instead of skipping them. -/
theorem c2_second_upload_zero_created_but_appends_again
    (uid : Nat) (ss : List UploadSession) (st : CloudState) :
    (upload_local_data uid ss (upload_local_data uid ss st).1).2.synced_sessions = 0 ∧
    (upload_local_data uid ss st).1.events.length =
      st.events.length + dataPointCount ss ∧
    (upload_local_data uid ss (upload_local_data uid ss st).1).1.events.length =
      st.events.length + dataPointCount ss + dataPointCount ss := by
  refine ⟨?_, ?_, ?_⟩
  · show (ss.foldl (uploadStep uid) ((upload_local_data uid ss st).1, 0, 0)).2.1 = 0
    refine foldl_created_of_covered uid ss _ ?_
    intro s hs
    show covered uid (ss.foldl (uploadStep uid) (st, 0, 0)).1.sessions s
    exact covered_all_after_run uid ss (st, 0, 0) s hs
  · exact foldl_events_length uid ss (st, 0, 0)
  · have h1 := foldl_events_length uid ss (st, 0, 0)
    have h2 := foldl_events_length uid ss ((upload_local_data uid ss st).1, 0, 0)
    show (ss.foldl (uploadStep uid) ((upload_local_data uid ss st).1, 0, 0)).1.events.length =
      st.events.length + dataPointCount ss + dataPointCount ss
    rw [h2]
    show (ss.foldl (uploadStep uid) (st, 0, 0)).1.events.length + dataPointCount ss =
      st.events.length + dataPointCount ss + dataPointCount ss
    rw [h1]

end EyeCompanion
